import Mathlib

/-!
A shallow embedding of src/main.py (flow6979/CSVfilter): the filter-expression
evaluator (eval_expression, convert_value), the row filter (filter_rows) and
the paginating driver (read_csv_with_filter), together with theorems checking
the specification's claims against these definitions.

Modelling conventions:
* Python values flowing through the evaluator are modelled by PyVal; a CPython
  float is modelled by a rational number (every numeric literal appearing in
  the claims is exactly representable, and no rounding-sensitive property is
  asserted).
* Python exceptions are modelled by PyError, carrying the exception class and,
  for ValueError/TypeError, a fixed rendition of the message text (the runtime
  message interpolates the offending value or type; the class is what the
  claims distinguish).
* The CPython builtins int(), float(), len() and the comparison operators are
  modelled on the PyVal fragment the program can produce (int/float/bool/str/
  None).  String parsing by int()/float() models the decimal forms: optional
  surrounding whitespace, optional sign, digits, and for float() a decimal
  point and exponent; underscore digit separators and the inf/nan spellings
  are not modelled, as no claim mentions them.
* ast.parse is CPython's parser, external to the repository: a filter string
  is represented by the AST it parses to (an Option Expr, none standing for a
  SyntaxError), and the ASTs of the concrete filter strings the claims use
  are spelled out as definitions below.  Expr.binOp stands for an ast.BinOp
  node (arithmetic such as age + 1), the representative construct outside the
  five variants handled by the evaluator; it reaches the evaluator's final
  else-branch, as would the other unhandled node kinds.
-/

namespace CSVfilter

/-- Python runtime values produced by the evaluator of src/main.py. -/
inductive PyVal where
  | int : Int → PyVal
  | float : Rat → PyVal
  | str : String → PyVal
  | bool : Bool → PyVal
  | none : PyVal
  deriving DecidableEq

/-- Python exceptions the program can raise, by class. -/
inductive PyError where
  | valueError : String → PyError
  | typeError : String → PyError
  | indexError : PyError
  | attributeError : PyError
  deriving DecidableEq

/-- The comparison operators in the ops table of eval_expression
(src/main.py lines 13-22): ast.Eq, NotEq, Lt, LtE, Gt, GtE. -/
inductive CmpOp where
  | eq | ne | lt | le | gt | ge
  deriving DecidableEq

/-- The boolean operators in the ops table: ast.And, ast.Or. -/
inductive BoolOpKind where
  | and | or
  deriving DecidableEq

/-- The Python AST fragment eval_expression walks: ast.BoolOp, ast.Compare
(a left operand and a list of (operator, comparator) pairs), ast.Name,
ast.Constant, ast.Call (callee expression and argument list), and ast.BinOp
standing for the unsupported constructs that fall into the else-branch. -/
inductive Expr where
  | boolOp : BoolOpKind → List Expr → Expr
  | compare : Expr → List (CmpOp × Expr) → Expr
  | name : String → Expr
  | const : PyVal → Expr
  | call : Expr → List Expr → Expr
  | binOp : Expr → Expr → Expr

/-- A row as produced by csv.DictReader: a mapping from field name to raw
string value, modelled as an association list with distinct keys. -/
def Row := List (String × String)

instance : DecidableEq Row := by unfold Row; infer_instance

/-- dict.get: the row lookup used by eval_expression (row.get(expr.id)),
returning None (here Option.none) when the field is absent. -/
def rowGet (row : Row) (k : String) : Option String :=
  List.lookup k row

/-- The PyVal that row.get hands to convert_value: the string when the field
is present, Python None when it is absent. -/
def optStrToVal : Option String → PyVal
  | some s => .str s
  | Option.none => .none

/-- Digit list to the natural number it denotes in base 10. -/
def digitsToNat (ds : List Char) : Nat :=
  ds.foldl (fun a c => a * 10 + (c.toNat - 48)) 0

/-- Strips leading and trailing whitespace from a character list — the
whitespace-stripping int() and float() perform on their string argument. -/
def trimChars (cs : List Char) : List Char :=
  ((cs.dropWhile Char.isWhitespace).reverse.dropWhile Char.isWhitespace).reverse

/-- Models CPython int(s) on a string: optional surrounding whitespace,
optional sign, then a nonempty run of digits; anything else raises
ValueError (here: Option.none). -/
def pyIntOfString (s : String) : Option Int :=
  let cs := trimChars s.data
  let signed : Bool × List Char :=
    match cs with
    | '-' :: r => (true, r)
    | '+' :: r => (false, r)
    | r => (false, r)
  let ds := signed.2
  if !ds.isEmpty && ds.all Char.isDigit then
    let n : Int := digitsToNat ds
    some (if signed.1 then -n else n)
  else
    Option.none

/-- Splits a leading run of decimal digits off a character list. -/
def takeDigits : List Char → List Char × List Char
  | [] => ([], [])
  | c :: r =>
    if c.isDigit then
      let p := takeDigits r
      (c :: p.1, p.2)
    else
      ([], c :: r)

/-- Models CPython float(s) on a string: optional surrounding whitespace,
optional sign, a mantissa with at least one digit and an optional decimal
point, and an optional exponent; anything else raises ValueError (here:
Option.none).  The value is exact, as a rational. -/
def pyFloatOfString (s : String) : Option Rat :=
  let cs0 := trimChars s.data
  let signed : Bool × List Char :=
    match cs0 with
    | '-' :: r => (true, r)
    | '+' :: r => (false, r)
    | r => (false, r)
  let p1 := takeDigits signed.2
  let ip := p1.1
  let p2 : List Char × List Char :=
    match p1.2 with
    | '.' :: r => takeDigits r
    | r => ([], r)
  let fp := p2.1
  if ip.isEmpty && fp.isEmpty then
    Option.none
  else
    let mant : Rat := (digitsToNat (ip ++ fp) : Int) / ((10 : Rat) ^ fp.length)
    let expPart : Option Int :=
      match p2.2 with
      | [] => some 0
      | 'e' :: r => pyExponent r
      | 'E' :: r => pyExponent r
      | _ => Option.none
    match expPart with
    | Option.none => Option.none
    | some e =>
      let v := mant * (10 : Rat) ^ e
      some (if signed.1 then -v else v)
where
  /-- The exponent part after the e/E: optional sign then nonempty digits,
  with nothing trailing. -/
  pyExponent (r : List Char) : Option Int :=
    let signed : Bool × List Char :=
      match r with
      | '-' :: r2 => (true, r2)
      | '+' :: r2 => (false, r2)
      | r2 => (false, r2)
    let p := takeDigits signed.2
    if p.1.isEmpty || !p.2.isEmpty then
      Option.none
    else
      some (if signed.1 then -(digitsToNat p.1 : Int) else (digitsToNat p.1 : Int))

/-- Models CPython int(q) on a float: truncation toward zero. -/
def ratTruncToInt (q : Rat) : Int :=
  Int.tdiv q.num q.den

/-- convert_value from src/main.py lines 41-48: try int(value), on ValueError
try float(value), on ValueError return the value unchanged.  Modelled on each
PyVal the program can hand it: int(s)/float(s) parse strings; int(n) returns
the int; int(q) truncates a float toward zero; int(b) maps a bool to 0/1;
int(None) raises TypeError, which the except ValueError handlers do not
catch, so it propagates. -/
def convert_value : PyVal → Except PyError PyVal
  | .str s =>
    match pyIntOfString s with
    | some n => .ok (.int n)
    | Option.none =>
      match pyFloatOfString s with
      | some q => .ok (.float q)
      | Option.none => .ok (.str s)
  | .int n => .ok (.int n)
  | .float q => .ok (.int (ratTruncToInt q))
  | .bool b => .ok (.int (if b then 1 else 0))
  | .none => .error (.typeError "int() argument must be a string, not NoneType")

/-- The numeric view CPython uses for cross-type numeric comparison:
ints, floats and bools compare by numeric value. -/
def toNum : PyVal → Option Rat
  | .int n => some (n : Rat)
  | .float q => some q
  | .bool b => some (if b then 1 else 0)
  | _ => Option.none

/-- Models CPython == on the value fragment: numeric values compare
numerically, strings compare as strings, None equals only None, and any
remaining mixed pair is unequal without error. -/
def pyEq (a b : PyVal) : Bool :=
  match toNum a, toNum b with
  | some x, some y => decide (x = y)
  | _, _ =>
    match a, b with
    | .str s, .str t => decide (s = t)
    | .none, .none => true
    | _, _ => false

/-- Whether an ordering comparison operator holds of an Ordering. -/
def cmpHolds : CmpOp → Ordering → Bool
  | .lt, o => decide (o = Ordering.lt)
  | .le, o => decide (o ≠ Ordering.gt)
  | .gt, o => decide (o = Ordering.gt)
  | .ge, o => decide (o ≠ Ordering.lt)
  | _, _ => false

/-- Three-way order on rationals. -/
def ordOfRat (x y : Rat) : Ordering :=
  if x < y then Ordering.lt else if x = y then Ordering.eq else Ordering.gt

/-- Three-way order on strings (code-point lexicographic, as in CPython). -/
def ordOfStr (x y : String) : Ordering :=
  if x < y then Ordering.lt else if x = y then Ordering.eq else Ordering.gt

/-- One entry of the ops table applied to two operands, i.e. operator.eq/ne/
lt/le/gt/ge with CPython semantics on the value fragment: ==/!= are total;
ordering comparisons order numbers with numbers and strings with strings and
raise TypeError on any other pair (e.g. a string against a number, or None
against anything). -/
def pyCompare (op : CmpOp) (a b : PyVal) : Except PyError Bool :=
  match op with
  | .eq => .ok (pyEq a b)
  | .ne => .ok (!(pyEq a b))
  | _ =>
    match toNum a, toNum b with
    | some x, some y => .ok (cmpHolds op (ordOfRat x y))
    | _, _ =>
      match a, b with
      | .str s, .str t => .ok (cmpHolds op (ordOfStr s t))
      | _, _ => .error (.typeError "comparison not supported between instances")

/-- Models CPython len(): defined on strings (the number of code points),
TypeError on every other value the program can produce. -/
def pyLen : PyVal → Except PyError PyVal
  | .str s => .ok (.int (s.length : Int))
  | _ => .error (.typeError "object has no len()")

/-- Python truthiness of a PyVal, as used by all()/any() and by the
if-statements of filter_rows and read_csv_with_filter. -/
def py_truthy : PyVal → Bool
  | .bool b => b
  | .int n => decide (n ≠ 0)
  | .float q => decide (q ≠ 0)
  | .str s => !s.data.isEmpty
  | .none => false

mutual

/-- eval_expression from src/main.py lines 12-39, case by case:
* ast.BoolOp: op(*(eval_expression(v, row) for v in expr.values)) — the
  star-unpacking evaluates every child before all()/any() runs, so a child
  raising propagates even when an earlier child already decided the result;
* ast.Compare: left is evaluated once and held fixed, then
  all(ops[type(op)](left, eval_expression(right, row)) for ...) — all()
  consumes the generator lazily, stopping at the first false pair, and every
  pair compares against the original left operand;
* ast.Name: convert_value(row.get(expr.id));
* ast.Constant: the literal value verbatim;
* ast.Call with expr.func.id == 'len': evaluates expr.args[0] only (extra
  arguments are ignored; an empty argument list raises IndexError at
  expr.args[0]; a callee that is not a Name raises AttributeError at
  expr.func.id); a Name callee other than len falls into the else-branch;
* anything else: raise ValueError("Unsupported expression type: ..."). -/
def eval_expression : Expr → Row → Except PyError PyVal
  | .boolOp k vs, row =>
    match evalChildren vs row with
    | .error e => .error e
    | .ok rs =>
      .ok (.bool (match k with
        | .and => (rs.map py_truthy).all (fun b => b)
        | .or => (rs.map py_truthy).any (fun b => b)))
  | .compare l pairs, row =>
    match eval_expression l row with
    | .error e => .error e
    | .ok left =>
      match evalPairs left pairs row with
      | .error e => .error e
      | .ok b => .ok (.bool b)
  | .name fid, row => convert_value (optStrToVal (rowGet row fid))
  | .const v, _ => .ok v
  | .call f args, row =>
    match f with
    | .name fid =>
      if fid = "len" then
        match args with
        | [] => .error .indexError
        | a :: _ =>
          match eval_expression a row with
          | .error e => .error e
          | .ok v => pyLen v
      else .error (.valueError "Unsupported expression type")
    | _ => .error .attributeError
  | .binOp _ _, _ => .error (.valueError "Unsupported expression type")
termination_by e row => sizeOf e

/-- The star-unpacked generator of a BoolOp: evaluates the children left to
right, stopping only when one raises. -/
def evalChildren : List Expr → Row → Except PyError (List PyVal)
  | [], _ => .ok []
  | e :: es, row =>
    match eval_expression e row with
    | .error err => .error err
    | .ok v =>
      match evalChildren es row with
      | .error err => .error err
      | .ok vs => .ok (v :: vs)
termination_by es row => sizeOf es

/-- all() over the comparison generator of an ast.Compare: pairs are taken
left to right, each right side is evaluated and compared against the fixed
left operand, and a false pair stops the remaining pairs from being
evaluated. -/
def evalPairs : PyVal → List (CmpOp × Expr) → Row → Except PyError Bool
  | _, [], _ => .ok true
  | left, (op, r) :: rest, row =>
    match eval_expression r row with
    | .error err => .error err
    | .ok rv =>
      match pyCompare op left rv with
      | .error err => .error err
      | .ok b => if b then evalPairs left rest row else .ok false
termination_by left ps row => sizeOf ps

end

/-- parse_filter_expression from src/main.py lines 6-10: ast.parse is
CPython's parser, external to the repository, so its outcome is the input
here (none standing for a SyntaxError).  The function turns a SyntaxError
into ValueError("Invalid filter expression: ...") and otherwise returns the
parsed body unchanged — it performs no check on the constructs the tree
contains. -/
def parse_filter_expression : Option Expr → Except PyError Expr
  | some e => .ok e
  | Option.none => .error (.valueError "Invalid filter expression")

/-- filter_rows from src/main.py lines 50-53, with the generator consumed to
a list: each row is kept when eval_expression is truthy on it, and an
exception raised on some row propagates. -/
def filter_rows : List Row → Expr → Except PyError (List Row)
  | [], _ => .ok []
  | r :: rs, t =>
    match eval_expression t r with
    | .error e => .error e
    | .ok v =>
      match filter_rows rs t with
      | .error e => .error e
      | .ok rest => .ok (if py_truthy v then r :: rest else rest)

/-- read_csv_with_filter from src/main.py lines 55-73, with the csv.DictReader
contents modelled as the list of rows of the input file.  The filter text is
the AST it parses to (as in parse_filter_expression).  The code computes
start_index = (page_number - 1) * page_size and end_index = start_index +
page_size, advances the reader start_index times without evaluating, and then
scans rows while enumerate's counter — which restarts at 0 after the skip —
is below end_index, appending the rows on which the tree evaluates truthy.
So the scanned window is (records.drop start_index).take end_index.  The
claims' domain has page_number ≥ 1, where Nat subtraction agrees with the
Python int arithmetic. -/
def read_csv_with_filter (records : List Row) (filter_criteria : Option Expr)
    (page_number page_size : Nat) : Except PyError (List Row) :=
  match parse_filter_expression filter_criteria with
  | .error e => .error e
  | .ok expression_tree =>
    let start_index := (page_number - 1) * page_size
    let end_index := start_index + page_size
    let scanned := (records.drop start_index).take end_index
    filter_rows scanned expression_tree

/-- Whether a row satisfies a compiled tree: eval_expression succeeds and the
result is truthy.  Used to state what the filtering operations return. -/
def row_matches (t : Expr) (r : Row) : Bool :=
  match eval_expression t r with
  | .ok v => py_truthy v
  | .error _ => false

/-! Concrete ASTs.  Each is the body of ast.parse(text, mode='eval') for the
filter text named in its comment, spelled out under CPython's grammar: a
chained comparison a < b < c is one ast.Compare with left a, ops [Lt, Lt] and
comparators [b, c]; x and y is one ast.BoolOp with op And and values [x, y]. -/

/-- ast.parse("1 < 2 < 3").body. -/
def ast_1_lt_2_lt_3 : Expr :=
  .compare (.const (.int 1)) [(.lt, .const (.int 2)), (.lt, .const (.int 3))]

/-- ast.parse("3 < 2 < 1").body. -/
def ast_3_lt_2_lt_1 : Expr :=
  .compare (.const (.int 3)) [(.lt, .const (.int 2)), (.lt, .const (.int 1))]

/-- ast.parse("1 < 3 < 2").body. -/
def ast_1_lt_3_lt_2 : Expr :=
  .compare (.const (.int 1)) [(.lt, .const (.int 3)), (.lt, .const (.int 2))]

/-- ast.parse("age + 1 > 5").body: the left operand is an ast.BinOp — valid
Python syntax, so ast.parse succeeds on it. -/
def ast_age_plus_1_gt_5 : Expr :=
  .compare (.binOp (.name "age") (.const (.int 1))) [(.gt, .const (.int 5))]

/-- ast.parse("(age >= 35) and (age <= 45)").body. -/
def ast_age_between_35_45 : Expr :=
  .boolOp .and
    [.compare (.name "age") [(.ge, .const (.int 35))],
     .compare (.name "age") [(.le, .const (.int 45))]]

/-- ast.parse("len(name) > 10").body. -/
def ast_len_name_gt_10 : Expr :=
  .compare (.call (.name "len") [.name "name"]) [(.gt, .const (.int 10))]

/-- ast.parse("1 == 1").body: a filter every record matches. -/
def tree_true : Expr :=
  .compare (.const (.int 1)) [(.eq, .const (.int 1))]

/-! Concrete rows. -/

def rowA : Row := [("id", "0")]

def rowB : Row := [("id", "1")]

def rowC : Row := [("id", "2")]

def row_age_40 : Row := [("age", "40")]

def row_age_50 : Row := [("age", "50")]

def row_name_Alexandria : Row := [("name", "Alexandria")]

def row_name_Alexandri : Row := [("name", "Alexandri")]

/-- The rational 7/2 — the value of the float literal 3.5 — in normalized
form, so that its num and den fields reduce definitionally. -/
def ratSevenHalves : Rat := ⟨7, 2, by decide, by norm_num⟩

/-! Helper lemmas shared by the claim theorems. -/

/-- If filter_rows returns without raising, its result is exactly the filter
of the input rows by row_matches. -/
theorem filter_rows_ok_eq {t : Expr} :
    ∀ {rows out : List Row}, filter_rows rows t = .ok out →
      out = rows.filter (row_matches t) := by
  intro rows
  induction rows with
  | nil =>
    intro out h
    simp only [filter_rows, Except.ok.injEq] at h
    subst h
    rfl
  | cons r rs ih =>
    intro out h
    simp only [filter_rows] at h
    cases he : eval_expression t r with
    | error e => simp only [he] at h; exact absurd h (by simp)
    | ok v =>
      simp only [he] at h
      cases hf : filter_rows rs t with
      | error e => simp only [hf] at h; exact absurd h (by simp)
      | ok rest =>
        simp only [hf, Except.ok.injEq] at h
        subst h
        have hrest := ih hf
        cases hv : py_truthy v <;>
          simp [List.filter_cons, row_matches, he, hv, hrest]

/-- A BoolOp evaluates every child: the star-unpacking of the child generator
forces each child in turn, so if any child raises, the whole evaluation
raises (with the first raising child's error). -/
theorem evalChildren_error_of_mem {row : Row} :
    ∀ {vs : List Expr} {e : Expr} {err : PyError}, e ∈ vs →
      eval_expression e row = .error err →
      ∃ err2, evalChildren vs row = .error err2 := by
  intro vs
  induction vs with
  | nil =>
    intro e err hmem _
    exact absurd hmem (List.not_mem_nil e)
  | cons v vs' ih =>
    intro e err hmem heval
    cases hv : eval_expression v row with
    | error e2 => exact ⟨e2, by simp [evalChildren, hv]⟩
    | ok val =>
      rcases List.mem_cons.mp hmem with h1 | h2
      · subst h1
        simp [heval] at hv
      · obtain ⟨err2, h2⟩ := ih h2 heval
        exact ⟨err2, by simp [evalChildren, hv, h2]⟩

/-- C1 (code bug): eval_expression evaluates a chained comparison with the
ORIGINAL left operand fixed for every pair — "1 < 3 < 2" evaluates as
(1 < 3) and (1 < 2), giving true, where Python-style chaining prescribed by
the claim gives (1 < 3) and (3 < 2) = false (the fourth conjunct shows the
claimed middle pair is false).  The claim's own two examples do hold
(conjuncts one and two), which is why the slip is invisible on them. -/
theorem c1_divergence :
    eval_expression ast_1_lt_2_lt_3 [] = .ok (.bool true)
    ∧ eval_expression ast_3_lt_2_lt_1 [] = .ok (.bool false)
    ∧ eval_expression ast_1_lt_3_lt_2 [] = .ok (.bool true)
    ∧ pyCompare .lt (.int 3) (.int 2) = .ok false := by
  refine ⟨?_, ?_, ?_, rfl⟩ <;>
    · simp only [ast_1_lt_2_lt_3, ast_3_lt_2_lt_1, ast_1_lt_3_lt_2,
        eval_expression, evalPairs]
      rfl

/-- C2 (code bug): read_csv_with_filter skips (page_number-1)*page_size
records, but the scan loop's row counter restarts at 0 after the skip while
the break still compares against end_index = start_index + page_size, so page
2 with page size 1 on three always-matching records scans and returns the
records at offsets 1 AND 2 — rowC sits at offset 2 ≥ page_number*page_size
(second conjunct), which the claim says is never returned. -/
theorem c2_divergence :
    read_csv_with_filter [rowA, rowB, rowC] (some tree_true) 2 1
      = .ok [rowB, rowC]
    ∧ List.drop (2 * 1) [rowA, rowB, rowC] = [rowC] := by
  constructor
  · simp only [read_csv_with_filter, parse_filter_expression, tree_true,
      filter_rows, eval_expression, evalPairs]
    rfl
  · rfl

/-- C3 (counterexample): compilation does NOT fail on "age + 1 > 5" — the
text is valid Python syntax, so ast.parse succeeds and
parse_filter_expression returns the tree unchanged, arithmetic and all; the
claimed compile-time rejection does not happen. -/
theorem c3_counterexample :
    parse_filter_expression (some ast_age_plus_1_gt_5)
      = .ok ast_age_plus_1_gt_5 := rfl

/-- C3 (amended): the unsupported construct is rejected at evaluation time
instead: evaluating the compiled tree of "age + 1 > 5" against any row raises
ValueError("Unsupported expression type") from the evaluator's else-branch
(first conjunct, and in general any BinOp node raises so — second conjunct);
it is never silently mis-evaluated. -/
theorem c3_amended :
    (∀ row : Row, eval_expression ast_age_plus_1_gt_5 row
        = .error (.valueError "Unsupported expression type"))
    ∧ (∀ (a b : Expr) (row : Row), eval_expression (.binOp a b) row
        = .error (.valueError "Unsupported expression type")) := by
  constructor
  · intro row
    simp [ast_age_plus_1_gt_5, eval_expression]
  · intro a b row
    simp [eval_expression]

/-- Witness for C3: the amended theorem applied to a concrete row. -/
theorem c3_amended_witness :
    eval_expression ast_age_plus_1_gt_5 [("age", "7")]
      = .error (.valueError "Unsupported expression type") :=
  c3_amended.1 [("age", "7")]

/-- C10 (confirmed): whenever the filtering operations return without an
evaluation error, the output is exactly the filter of the scanned rows by
row_matches: a subsequence of the scanned input (order preserved) containing
precisely the scanned records that satisfy the filter.  For
read_csv_with_filter the scanned window is the slice of the input its loop
actually evaluates, and the output is also a subsequence of the whole
input. -/
theorem c10_subsequence :
    (∀ (rows : List Row) (t : Expr) (out : List Row),
        filter_rows rows t = .ok out →
          out = rows.filter (row_matches t)
          ∧ out.Sublist rows
          ∧ (∀ r : Row, r ∈ out ↔ r ∈ rows ∧ row_matches t r = true))
    ∧ (∀ (records : List Row) (t : Expr) (page_number page_size : Nat)
          (out : List Row),
        read_csv_with_filter records (some t) page_number page_size = .ok out →
          out = ((records.drop ((page_number - 1) * page_size)).take
                  ((page_number - 1) * page_size + page_size)).filter
                  (row_matches t)
          ∧ out.Sublist records) := by
  constructor
  · intro rows t out h
    have he := filter_rows_ok_eq h
    refine ⟨he, ?_, ?_⟩
    · rw [he]; exact List.filter_sublist _
    · intro r
      rw [he]
      exact List.mem_filter
  · intro records t page_number page_size out h
    simp only [read_csv_with_filter, parse_filter_expression] at h
    have he := filter_rows_ok_eq h
    refine ⟨he, ?_⟩
    rw [he]
    exact (List.filter_sublist _).trans
      ((List.take_sublist _ _).trans (List.drop_sublist _ _))

/-- Witness for C10: the subsequence theorem applied to a concrete run of
filter_rows on a one-row input that matches the always-true filter. -/
theorem c10_subsequence_witness :
    filter_rows [rowA] tree_true = .ok [rowA]
    ∧ [rowA] = [rowA].filter (row_matches tree_true) := by
  have hrun : filter_rows [rowA] tree_true = .ok [rowA] := by
    simp only [filter_rows, tree_true, eval_expression, evalPairs]
    rfl
  exact ⟨hrun, (c10_subsequence.1 [rowA] tree_true [rowA] hrun).1⟩

/-- C4 (counterexample): a call to len with TWO arguments is not rejected —
eval_expression reads expr.args[0] only, so len("xy", "zzz") evaluates to 2,
refuting the claimed rejection of wrong arity. -/
theorem c4_counterexample :
    eval_expression
        (.call (.name "len") [.const (.str "xy"), .const (.str "zzz")]) []
      = .ok (.int 2) := by
  simp only [eval_expression]
  rfl

/-- C4 (amended): a call is evaluated (not validated) when its target is the
bare identifier len: extra arguments beyond the first are silently ignored,
zero arguments raise IndexError at expr.args[0], and a call to any other
identifier raises ValueError — the same exception class as the parse
failure (last conjunct), not a distinct kind. -/
theorem c4_amended :
    (∀ (fid : String) (args : List Expr) (row : Row), fid ≠ "len" →
        eval_expression (.call (.name fid) args) row
          = .error (.valueError "Unsupported expression type"))
    ∧ (∀ row : Row,
        eval_expression (.call (.name "len") []) row = .error .indexError)
    ∧ (∀ (a : Expr) (rest : List Expr) (row : Row),
        eval_expression (.call (.name "len") (a :: rest)) row
          = eval_expression (.call (.name "len") [a]) row)
    ∧ (∃ m : String,
        parse_filter_expression Option.none = .error (.valueError m)) := by
  refine ⟨?_, ?_, ?_, ⟨"Invalid filter expression", rfl⟩⟩
  · intro fid args row h
    rw [eval_expression.eq_def]
    simp [h]
  · intro row
    simp [eval_expression]
  · intro a rest row
    simp only [eval_expression]

/-- Witness for C4: the amended theorem applied to the call max(), with the
hypothesis that max is not len discharged concretely. -/
theorem c4_amended_witness :
    eval_expression (.call (.name "max") []) []
      = .error (.valueError "Unsupported expression type") :=
  c4_amended.1 "max" [] [] (by decide)

/-- C5 (counterexample): evaluating a FieldReference whose name is absent
from the row does NOT complete: int(None) raises TypeError, which the
except-ValueError handlers of convert_value do not catch. -/
theorem c5_counterexample :
    eval_expression (.name "age") []
      = .error (.typeError "int() argument must be a string, not NoneType") := by
  simp [eval_expression, rowGet, optStrToVal, convert_value]

/-- C5 (amended): the lookup itself does not fail — row.get resolves an
absent field to the None sentinel, which is passed to the coercion step like
any other value (first conjunct) — but coercion raises TypeError on the
sentinel (second conjunct), so the field reference raises rather than
completing. -/
theorem c5_amended (row : Row) (fid : String)
    (h : rowGet row fid = Option.none) :
    eval_expression (.name fid) row = convert_value PyVal.none
    ∧ convert_value PyVal.none
        = .error (.typeError "int() argument must be a string, not NoneType") := by
  constructor
  · simp [eval_expression, h, optStrToVal]
  · rfl

/-- Witness for C5: the amended theorem on the empty row, where every field
is absent. -/
theorem c5_amended_witness :
    eval_expression (.name "salary") [] = convert_value PyVal.none
    ∧ convert_value PyVal.none
        = .error (.typeError "int() argument must be a string, not NoneType") :=
  c5_amended [] "salary" rfl

/-- C6 (counterexample): comparing the string "a" against the number 5 with
EQ does not raise TypeError — operator.eq on mixed types returns False, so
the claim fails for the operator EQ (and symmetrically NE). -/
theorem c6_counterexample :
    eval_expression (.compare (.const (.str "a")) [(.eq, .const (.int 5))]) []
      = .ok (.bool false) := by
  simp only [eval_expression, evalPairs]
  rfl

/-- C6 (amended): comparing a string against a number fails with TypeError
at evaluation time for the ordering operators LT, LE, GT, GE — a runtime
condition reachable from well-compiled trees — while EQ evaluates to false
and NE to true without raising. -/
theorem c6_amended (s : String) (n : Int) (op : CmpOp)
    (h : op = .lt ∨ op = .le ∨ op = .gt ∨ op = .ge) :
    eval_expression (.compare (.const (.str s)) [(op, .const (.int n))]) []
      = .error (.typeError "comparison not supported between instances")
    ∧ eval_expression (.compare (.const (.str s)) [(.eq, .const (.int n))]) []
      = .ok (.bool false)
    ∧ eval_expression (.compare (.const (.str s)) [(.ne, .const (.int n))]) []
      = .ok (.bool true) := by
  refine ⟨?_, ?_, ?_⟩
  · rcases h with h | h | h | h <;> subst h <;>
      simp [eval_expression, evalPairs, pyCompare, toNum]
  · simp [eval_expression, evalPairs, pyCompare, pyEq, toNum]
  · simp [eval_expression, evalPairs, pyCompare, pyEq, toNum]

/-- Witness for C6: the amended theorem at the string "b", the number 7 and
the operator LT, with the operator-membership hypothesis discharged. -/
theorem c6_amended_witness :
    eval_expression (.compare (.const (.str "b")) [(.lt, .const (.int 7))]) []
      = .error (.typeError "comparison not supported between instances")
    ∧ eval_expression (.compare (.const (.str "b")) [(.eq, .const (.int 7))]) []
      = .ok (.bool false)
    ∧ eval_expression (.compare (.const (.str "b")) [(.ne, .const (.int 7))]) []
      = .ok (.bool true) :=
  c6_amended "b" 7 .lt (Or.inl rfl)

/-- C7 (counterexample): coercion is not idempotent on floats — "3.5"
coerces to the float 7/2, but coercing that float again yields the int 3,
because int(3.5) succeeds by truncation rather than raising ValueError. -/
theorem c7_counterexample :
    convert_value (.str "3.5") = .ok (.float ratSevenHalves)
    ∧ convert_value (.float ratSevenHalves) = .ok (.int 3)
    ∧ PyVal.float ratSevenHalves ≠ PyVal.int 3 := by
  have hval : ((35 : Int) : Rat) / (10 : Rat) ^ (1 : Nat) * (10 : Rat) ^ (0 : Int)
      = ratSevenHalves := by
    have h1 : ratSevenHalves.num = 7 := rfl
    have h2 : ratSevenHalves.den = 2 := rfl
    rw [← Rat.num_div_den ratSevenHalves, h1, h2]
    norm_num
  refine ⟨?_, rfl, by simp⟩
  have hcv : convert_value (.str "3.5")
      = .ok (.float (((35 : Int) : Rat) / (10 : Rat) ^ (1 : Nat)
          * (10 : Rat) ^ (0 : Int))) := rfl
  rw [hcv, hval]

/-- C7 (amended): coercion of a raw string tries int parse, then float
parse, then returns the string unchanged, and re-coercion is idempotent for
values coerced to int (first conjunct) and for values left as strings
(second conjunct, which also shows the string comes back unchanged); but a
value coerced to float is truncated to an int by a second coercion (third
conjunct), so idempotence fails exactly on floats. -/
theorem c7_amended :
    (∀ n : Int, convert_value (.int n) = .ok (.int n))
    ∧ (∀ s t : String, convert_value (.str s) = .ok (.str t) →
        t = s ∧ convert_value (.str t) = .ok (.str t))
    ∧ (∀ q : Rat, convert_value (.float q) = .ok (.int (ratTruncToInt q))) := by
  refine ⟨fun n => rfl, ?_, fun q => rfl⟩
  intro s t h
  simp only [convert_value] at h
  cases hi : pyIntOfString s with
  | some n => simp [hi] at h
  | none =>
    simp only [hi] at h
    cases hfq : pyFloatOfString s with
    | some q => simp [hfq] at h
    | none =>
      simp only [hfq, Except.ok.injEq, PyVal.str.injEq] at h
      subst h
      exact ⟨rfl, by simp [convert_value, hi, hfq]⟩

/-- Witness for C7: the amended theorem's string conjunct at "abc", whose
coercion hypothesis is discharged by evaluation. -/
theorem c7_amended_witness :
    "abc" = "abc" ∧ convert_value (.str "abc") = .ok (.str "abc") :=
  c7_amended.2.1 "abc" "abc" (by rfl)

/-- C8 (confirmed): a BoolOp evaluates every child and reduces the truth
values with all (AND) or any (OR) — conjuncts one and two; any child's error
surfaces even when an earlier child already decided the result (conjunct
three in general; conjunct four concretely: False and <missing field> raises
instead of short-circuiting to false); and the claim's two examples hold:
"(age >= 35) and (age <= 45)" is true on age 40 and false on age 50. -/
theorem c8_boolop :
    (∀ (vs : List Expr) (row : Row) (rs : List PyVal),
        evalChildren vs row = .ok rs →
          eval_expression (.boolOp .and vs) row
            = .ok (.bool ((rs.map py_truthy).all (fun b => b))))
    ∧ (∀ (vs : List Expr) (row : Row) (rs : List PyVal),
        evalChildren vs row = .ok rs →
          eval_expression (.boolOp .or vs) row
            = .ok (.bool ((rs.map py_truthy).any (fun b => b))))
    ∧ (∀ (k : BoolOpKind) (vs : List Expr) (row : Row) (e : Expr)
          (err : PyError),
        e ∈ vs → eval_expression e row = .error err →
          ∃ err2, eval_expression (.boolOp k vs) row = .error err2)
    ∧ eval_expression (.boolOp .and [.const (.bool false), .name "missing"]) []
        = .error (.typeError "int() argument must be a string, not NoneType")
    ∧ eval_expression ast_age_between_35_45 row_age_40 = .ok (.bool true)
    ∧ eval_expression ast_age_between_35_45 row_age_50 = .ok (.bool false) := by
  refine ⟨?_, ?_, ?_, ?_, ?_, ?_⟩
  · intro vs row rs h
    simp [eval_expression, h]
  · intro vs row rs h
    simp [eval_expression, h]
  · intro k vs row e err hmem heval
    obtain ⟨err2, h2⟩ := evalChildren_error_of_mem hmem heval
    exact ⟨err2, by simp [eval_expression, h2]⟩
  · simp only [eval_expression, evalChildren]
    rfl
  · simp only [ast_age_between_35_45, row_age_40, eval_expression,
      evalChildren, evalPairs]
    rfl
  · simp only [ast_age_between_35_45, row_age_50, eval_expression,
      evalChildren, evalPairs]
    rfl

/-- Witness for C8: the OR-reduction conjunct applied to a concrete
single-child combinator, with the child evaluation discharged. -/
theorem c8_boolop_witness :
    evalChildren [Expr.const (PyVal.bool true)] [] = .ok [PyVal.bool true]
    ∧ eval_expression (.boolOp .or [.const (.bool true)]) []
        = .ok (.bool true) := by
  have h : evalChildren [Expr.const (PyVal.bool true)] []
      = .ok [PyVal.bool true] := by
    simp only [evalChildren, eval_expression]
  exact ⟨h, c8_boolop.2.1 [Expr.const (PyVal.bool true)] [] [PyVal.bool true] h⟩

/-- C9 (counterexample): the claim's first example is wrong on the code —
"Alexandria" has exactly 10 characters, so len(name) > 10 evaluates to
FALSE, not true, on the row name = Alexandria. -/
theorem c9_counterexample :
    eval_expression ast_len_name_gt_10 row_name_Alexandria
      = .ok (.bool false) := by
  simp only [ast_len_name_gt_10, row_name_Alexandria, eval_expression,
    evalPairs]
  rfl

/-- C9 (amended): a LengthCall evaluates its argument, requires a string and
returns its length as an integer (first conjunct), failing with TypeError
when the evaluated argument is numeric — int or float (second and third
conjuncts); and len(name) > 10 is FALSE both on name = "Alexandria" (10
characters, the boundary) and on name = "Alexandri" (9 characters). -/
theorem c9_amended :
    (∀ (a : Expr) (row : Row) (s : String),
        eval_expression a row = .ok (.str s) →
          eval_expression (.call (.name "len") [a]) row
            = .ok (.int (s.length : Int)))
    ∧ (∀ (a : Expr) (row : Row) (n : Int),
        eval_expression a row = .ok (.int n) →
          eval_expression (.call (.name "len") [a]) row
            = .error (.typeError "object has no len()"))
    ∧ (∀ (a : Expr) (row : Row) (q : Rat),
        eval_expression a row = .ok (.float q) →
          eval_expression (.call (.name "len") [a]) row
            = .error (.typeError "object has no len()"))
    ∧ eval_expression ast_len_name_gt_10 row_name_Alexandria
        = .ok (.bool false)
    ∧ eval_expression ast_len_name_gt_10 row_name_Alexandri
        = .ok (.bool false) := by
  refine ⟨?_, ?_, ?_, ?_, ?_⟩
  · intro a row s h
    simp [eval_expression, h, pyLen]
  · intro a row n h
    simp [eval_expression, h, pyLen]
  · intro a row q h
    simp [eval_expression, h, pyLen]
  · simp only [ast_len_name_gt_10, row_name_Alexandria, eval_expression,
      evalPairs]
    rfl
  · simp only [ast_len_name_gt_10, row_name_Alexandri, eval_expression,
      evalPairs]
    rfl

/-- Witness for C9: the string conjunct of the amended theorem applied to a
two-character literal argument. -/
theorem c9_amended_witness :
    eval_expression (.call (.name "len") [.const (.str "ab")]) []
      = .ok (.int 2) := by
  have h : eval_expression (.const (.str "ab")) [] = .ok (.str "ab") := by
    simp [eval_expression]
  exact c9_amended.1 (.const (.str "ab")) [] "ab" h

end CSVfilter
